import Mathlib

/-!
Verification of the Alma Analytics HTTP function (function_app.py).

The Python module is a single Azure Functions HTTP handler that
1. validates the JSON request body (fields iz, analysis, optional resume),
2. resolves configuration through five external lookups,
3. URL-encodes a query-string payload (urllib.parse.urlencode, safe=":%"),
4. issues one outbound GET to the analytics API,
5. parses the XML response (BeautifulSoup) into columns and rows,
6. returns a JSON envelope.

The embedding below models the handler as a pure function from
- a configuration store (the five lookup functions, external to the repo),
- a remote oracle (what the analytics API returns for a given payload),
- the parsed request body,
to an HTTP response paired with a trace of the effects performed
(which lookups were called, whether the outbound GET was issued, and
whether column/row extraction was attempted).
-/

namespace AlmaAnalytics

/-- An HTTP response: status code and body text (func.HttpResponse). -/
structure HttpResponse where
  status : Nat
  body : String
deriving DecidableEq

/-- Record returned by get_area_by_name. -/
structure Area where
  id : Nat
deriving DecidableEq

/-- Record returned by get_iz_by_code. -/
structure IZ where
  id : Nat
  code : String
deriving DecidableEq

/-- Record returned by get_analysis_by_name. -/
structure Analysis where
  id : Nat
  name : String
deriving DecidableEq

/-- Record returned by get_iz_analysis_by_iz_and_analysis; carries the report path. -/
structure IZAnalysis where
  path : String
deriving DecidableEq

/-- Record returned by get_api_key_by_area_and_iz; carries the key string. -/
structure ApiKey where
  apikey : String
deriving DecidableEq

/-- The external configuration store: the five lookup operations imported
from barcodecheck_models in function_app.py. -/
structure ConfigStore where
  get_area_by_name : String → Option Area
  get_iz_by_code : String → Option IZ
  get_analysis_by_name : String → Option Analysis
  get_iz_analysis_by_iz_and_analysis : IZ → Analysis → Option IZAnalysis
  get_api_key_by_area_and_iz : Nat → Nat → Bool → Option ApiKey

/-- Effects performed by the handler, in order: configuration lookups
(with the arguments they were called with), the outbound GET, and the
two extraction steps over the parsed document. -/
inductive Event where
  | lookupArea (name : String)
  | lookupIZ (code : String)
  | lookupAnalysis (name : String)
  | lookupIZAnalysis (iz : IZ) (analysis : Analysis)
  | lookupApiKey (areaId : Nat) (izId : Nat) (writeAccess : Bool)
  | outboundCall (payload : String)
  | columnExtraction
  | rowExtraction
deriving DecidableEq

/-- The request body as seen by set_payload: either req.get_json() raised
ValueError (invalid), or a JSON object with optional string fields
iz, analysis, resume (a missing key and a JSON null both read back as none). -/
inductive ReqBody where
  | invalid
  | valid (iz analysis resume : Option String)
deriving DecidableEq

/-- Python truthiness of an optional string field: None and the empty
string are falsy, every other string is truthy. -/
def truthy : Option String → Bool
  | none => false
  | some s => s != ""

/-! URL encoding: a model of urllib.parse.urlencode with quote_via the
default quote_plus, over the UTF-8 bytes of each key and value.
A byte is kept literal when it is in Python's ALWAYS_SAFE set
(ASCII letters, digits, underscore, dot, hyphen, tilde) or in the
caller-supplied safe set; a space byte becomes a plus; every other
byte becomes a percent escape with two uppercase hex digits. -/

/-- UTF-8 encoding of one code point, as a list of byte values. -/
def utf8Bytes (c : Char) : List Nat :=
  let n := c.toNat
  if n < 128 then [n]
  else if n < 2048 then [192 + n / 64, 128 + n % 64]
  else if n < 65536 then [224 + n / 4096, 128 + n / 64 % 64, 128 + n % 64]
  else [240 + n / 262144, 128 + n / 4096 % 64, 128 + n / 64 % 64, 128 + n % 64]

/-- UTF-8 bytes of a string. -/
def strBytes (s : String) : List Nat :=
  (s.data.map utf8Bytes).flatten

/-- Python's ALWAYS_SAFE bytes: ASCII letters, digits, and the four
characters underscore, dot, hyphen, tilde. -/
def alwaysSafeByte (b : Nat) : Bool :=
  (decide (65 ≤ b) && decide (b ≤ 90)) ||
  (decide (97 ≤ b) && decide (b ≤ 122)) ||
  (decide (48 ≤ b) && decide (b ≤ 57)) ||
  b == 95 || b == 46 || b == 45 || b == 126

/-- Uppercase hexadecimal digit for a value below 16. -/
def hexDigit (n : Nat) : Char :=
  if n < 10 then Char.ofNat (48 + n) else Char.ofNat (55 + n)

/-- quote_plus applied to one byte: space becomes plus, safe bytes stay
literal, everything else is percent-escaped. -/
def quoteByte (safe : List Nat) (b : Nat) : String :=
  if b == 32 then "+"
  else if alwaysSafeByte b || safe.contains b then String.singleton (Char.ofNat b)
  else "%" ++ String.singleton (hexDigit (b / 16)) ++ String.singleton (hexDigit (b % 16))

/-- quote_plus over a whole string. -/
def quote_plus (safe : List Nat) (s : String) : String :=
  String.join ((strBytes s).map (quoteByte safe))

/-- urlencode: ampersand-separated key=value pairs, both sides quoted. -/
def urlencode (safe : List Nat) (params : List (String × String)) : String :=
  String.intercalate "&" (params.map (fun kv => quote_plus safe kv.1 ++ "=" ++ quote_plus safe kv.2))

/-- The safe set passed by set_payload: colon and percent. -/
def safeColonPercent : List Nat := [58, 37]

/-- One cell of a Row element: its tag name (Column0, Column1, ...) and text. -/
structure Cell where
  tag : String
  text : String
deriving DecidableEq

/-- One xsd:element column declaration: its name attribute and its
saw-sql:columnHeading attribute. -/
structure ColumnDecl where
  name : String
  heading : String
deriving DecidableEq

/-- The parsed XML document, abstracting the BeautifulSoup tree by the
queries the handler performs on it. isEmpty models bool(soup) being
False, i.e. len(soup.contents) == 0 (bs4 Tag truthiness is the length
of its contents list). errorText is the text of the first error element
when one exists; resumptionToken likewise for ResumptionToken. -/
structure Soup where
  isEmpty : Bool
  errorText : Option String
  columnDecls : List ColumnDecl
  rowElems : List (List Cell)
  resumptionToken : Option String
deriving DecidableEq

/-- Python dict assignment d[k] = v on an association list whose keys are
unique (every dict in this model is built from the empty dict by this
operation): replace the value in place when the key exists, else append. -/
def dictInsert : List (String × String) → String → String → List (String × String)
  | [], k, v => [(k, v)]
  | kv :: rest, k, v =>
    if kv.1 == k then (k, v) :: rest else kv :: dictInsert rest k v

/-- Does the first character list occur at the head of the second? -/
def strHeadMatch : List Char → List Char → Bool
  | [], _ => true
  | _ :: _, [] => false
  | a :: as, b :: bs => a == b && strHeadMatch as bs

/-- Does the first character list occur contiguously anywhere in the second? -/
def strFindSub (needle : List Char) : List Char → Bool
  | [] => strHeadMatch needle []
  | b :: bs => strHeadMatch needle (b :: bs) || strFindSub needle bs

/-- Python's substring containment test: needle in hay. -/
def containsSubstr (needle hay : String) : Bool :=
  strFindSub needle.data hay.data

/-- The heading pattern special-cased in get_columns (note the double space). -/
def provenancePattern : String := "CASE  WHEN Provenance Code"

/-- One step of the get_columns loop: record name ↦ heading, then rewrite
to Provenance Code when the heading contains the pattern. -/
def columnStep (cols : List (String × String)) (c : ColumnDecl) : List (String × String) :=
  let cols2 := dictInsert cols c.name c.heading
  if containsSubstr provenancePattern c.heading then dictInsert cols2 c.name "Provenance Code"
  else cols2

/-- The columns dictionary built by get_columns from the declarations. -/
def columnsMap (decls : List ColumnDecl) : List (String × String) :=
  decls.foldl columnStep []

/-- get_columns: 404 when no xsd:element declarations, else the columns map. -/
def get_columns (soup : Soup) : Except HttpResponse (List (String × String)) :=
  if soup.columnDecls.isEmpty then .error ⟨404, "No columns found"⟩
  else .ok (columnsMap soup.columnDecls)

/-- The key under which a row child is recorded: the column heading when
the tag is in the columns map, else the raw tag name. -/
def resolveKey (columns : List (String × String)) (tag : String) : String :=
  match columns.lookup tag with
  | some heading => heading
  | none => tag

/-- One step of the inner get_rows loop over a row's children: skip
Column0, otherwise record the text under the resolved key. -/
def rowStep (columns : List (String × String)) (vals : List (String × String)) (kid : Cell) :
    List (String × String) :=
  if kid.tag != "Column0" then
    match columns.lookup kid.tag with
    | some heading => dictInsert vals heading kid.text
    | none => dictInsert vals kid.tag kid.text
  else vals

/-- The values dictionary built for one Row element. -/
def rowValues (columns : List (String × String)) (kids : List Cell) : List (String × String) :=
  kids.foldl (rowStep columns) []

/-- get_rows: 404 when no Row elements, else one values dict per row. -/
def get_rows (soup : Soup) (columns : List (String × String)) :
    Except HttpResponse (List (List (String × String))) :=
  if soup.rowElems.isEmpty then .error ⟨404, "No rows found"⟩
  else .ok (soup.rowElems.map (rowValues columns))

/-- get_soup: 404 when the parsed document is falsy (no contents),
500 surfacing the error element's text when one exists, else the document. -/
def get_soup (soup : Soup) : Except HttpResponse Soup :=
  if soup.isEmpty then .error ⟨404, "Empty or invalid XML response"⟩
  else
    match soup.errorText with
    | some t => .error ⟨500, "Error: " ++ t⟩
    | none => .ok soup

/-- set_payload: validate the body, run the five lookups in order, and
build the url-encoded payload. Returns the result together with the
trace of lookups actually performed. -/
def set_payload (store : ConfigStore) (req : ReqBody) :
    (Except HttpResponse String) × List Event :=
  match req with
  | .invalid => (.error ⟨400, "Invalid JSON in request body"⟩, [])
  | .valid izField analysisField resume =>
    if !truthy izField || !truthy analysisField then
      (.error ⟨400, "Pass iz, and analysis in the request body"⟩, [])
    else
      let izCode := izField.getD ""
      let analysisName := analysisField.getD ""
      match store.get_area_by_name "analytics" with
      | none => (.error ⟨404, "Area not found"⟩, [.lookupArea "analytics"])
      | some area =>
        match store.get_iz_by_code izCode with
        | none =>
          (.error ⟨404, "IZ not found"⟩, [.lookupArea "analytics", .lookupIZ izCode])
        | some iz =>
          match store.get_analysis_by_name analysisName with
          | none =>
            (.error ⟨404, "Analysis not found"⟩,
             [.lookupArea "analytics", .lookupIZ izCode, .lookupAnalysis analysisName])
          | some analysis =>
            match store.get_iz_analysis_by_iz_and_analysis iz analysis with
            | none =>
              (.error ⟨404, "Report path not found"⟩,
               [.lookupArea "analytics", .lookupIZ izCode, .lookupAnalysis analysisName,
                .lookupIZAnalysis iz analysis])
            | some izAnalysis =>
              match store.get_api_key_by_area_and_iz area.id iz.id false with
              | none =>
                (.error ⟨404, "API key not found"⟩,
                 [.lookupArea "analytics", .lookupIZ izCode, .lookupAnalysis analysisName,
                  .lookupIZAnalysis iz analysis, .lookupApiKey area.id iz.id false])
              | some apikey =>
                let base := urlencode safeColonPercent
                  [("path", izAnalysis.path), ("apikey", apikey.apikey),
                   ("limit", "1000"), ("col_names", "true")]
                let payload := if truthy resume then base ++ "&token=" ++ resume.getD "" else base
                (.ok payload,
                 [.lookupArea "analytics", .lookupIZ izCode, .lookupAnalysis analysisName,
                  .lookupIZAnalysis iz analysis, .lookupApiKey area.id iz.id false])

/-- make_api_call: one outbound GET; any transport or HTTP-status failure
becomes a 500 carrying the exception text. The remote oracle maps the
payload to either an exception text or the parsed response document. -/
def make_api_call (remote : String → Except String Soup) (payload : String) :
    (Except HttpResponse Soup) × List Event :=
  match remote payload with
  | .error e => (.error ⟨500, "API call failed: " ++ e⟩, [.outboundCall payload])
  | .ok resp => (.ok resp, [.outboundCall payload])

/-- Minimal JSON string escaping (backslash and double quote). -/
def jsonEscapeChar (c : Char) : String :=
  if c == '\\' then "\\\\"
  else if c == '\"' then "\\\""
  else String.singleton c

/-- JSON string literal. -/
def jsonStr (s : String) : String :=
  "\"" ++ String.join (s.data.map jsonEscapeChar) ++ "\""

/-- JSON object for one row dictionary (json.dumps default separators). -/
def jsonRow (row : List (String × String)) : String :=
  "\x7b" ++ String.intercalate ", " (row.map (fun kv => jsonStr kv.1 ++ ": " ++ jsonStr kv.2)) ++ "\x7d"

/-- The resume value of the success envelope: the ResumptionToken text
when the element exists and is truthy (bs4 Tag truthiness: an element
whose contents are empty, e.g. empty text, is falsy). -/
def resumeValue (soup : Soup) : Option String :=
  match soup.resumptionToken with
  | some t => if t != "" then some t else none
  | none => none

/-- json.dumps of the success envelope. -/
def successBody (resume : Option String) (rows : List (List (String × String))) : String :=
  "\x7b\"status\": \"success\", \"data\": \x7b\"resume\": " ++
  (match resume with
   | some t => jsonStr t
   | none => "null") ++
  ", \"rows\": [" ++ String.intercalate ", " (rows.map jsonRow) ++ "]\x7d\x7d"

/-- The full handler: set_payload, make_api_call, get_soup, get_columns,
get_rows, then the 200 envelope, each stage short-circuiting on an
HttpResponse, paired with the trace of effects performed. -/
def httpalmaanalytics (store : ConfigStore) (remote : String → Except String Soup)
    (req : ReqBody) : HttpResponse × List Event :=
  let payloadResult := set_payload store req
  match payloadResult.1 with
  | .error resp => (resp, payloadResult.2)
  | .ok payload =>
    let callResult := make_api_call remote payload
    match callResult.1 with
    | .error resp => (resp, payloadResult.2 ++ callResult.2)
    | .ok rawResponse =>
      match get_soup rawResponse with
      | .error resp => (resp, payloadResult.2 ++ callResult.2)
      | .ok soup =>
        match get_columns soup with
        | .error resp => (resp, payloadResult.2 ++ callResult.2 ++ [.columnExtraction])
        | .ok columns =>
          match get_rows soup columns with
          | .error resp =>
            (resp, payloadResult.2 ++ callResult.2 ++ [.columnExtraction, .rowExtraction])
          | .ok rows =>
            (⟨200, successBody (resumeValue soup) rows⟩,
             payloadResult.2 ++ callResult.2 ++ [.columnExtraction, .rowExtraction])

/-- A configuration store on which every lookup of the chain succeeds for
the inputs wrlc and occ. -/
def sampleStore : ConfigStore where
  get_area_by_name := fun n => if n == "analytics" then some ⟨7⟩ else none
  get_iz_by_code := fun c => if c == "wrlc" then some ⟨42, "wrlc"⟩ else none
  get_analysis_by_name := fun n => if n == "occ" then some ⟨99, "occ"⟩ else none
  get_iz_analysis_by_iz_and_analysis := fun i a =>
    if i.id == 42 && a.id == 99 then some ⟨"x:y%z"⟩ else none
  get_api_key_by_area_and_iz := fun aid izid wr =>
    if aid == 7 && izid == 42 && wr == false then some ⟨"k123"⟩ else none

/-- A configuration store on which every lookup fails. -/
def emptyStore : ConfigStore where
  get_area_by_name := fun _ => none
  get_iz_by_code := fun _ => none
  get_analysis_by_name := fun _ => none
  get_iz_analysis_by_iz_and_analysis := fun _ _ => none
  get_api_key_by_area_and_iz := fun _ _ _ => none

/-- A remote oracle that always fails with a fixed exception text. -/
def failRemote : String → Except String Soup := fun _ => .error "boom"

/-- A remote oracle returning a fixed parsed document regardless of payload. -/
def constRemote (soup : Soup) : String → Except String Soup := fun _ => .ok soup

/-! Helper lemmas. -/

/-- Looking up the inserted key finds the inserted value. -/
theorem dictInsert_lookup_self (m : List (String × String)) (k v : String) :
    (dictInsert m k v).lookup k = some v := by
  induction m with
  | nil => simp [dictInsert, List.lookup]
  | cons kv rest ih =>
    by_cases h : kv.1 = k
    · simp [dictInsert, h, List.lookup]
    · have hb : (kv.1 == k) = false := beq_eq_false_iff_ne.mpr h
      have hb2 : (k == kv.1) = false := beq_eq_false_iff_ne.mpr (Ne.symm h)
      simp [dictInsert, hb, List.lookup, hb2, ih]

/-- Looking up a different key is unchanged by an insertion. -/
theorem dictInsert_lookup_other (m : List (String × String)) (k v k2 : String)
    (h : k2 ≠ k) : (dictInsert m k v).lookup k2 = m.lookup k2 := by
  induction m with
  | nil => simp [dictInsert, List.lookup, beq_eq_false_iff_ne.mpr h]
  | cons kv rest ih =>
    by_cases hk : kv.1 = k
    · simp [dictInsert, hk, List.lookup, beq_eq_false_iff_ne.mpr h]
    · simp [dictInsert, beq_eq_false_iff_ne.mpr hk, List.lookup, ih]

/-- Every event traced by set_payload is a configuration lookup: never an
outbound call and never an extraction step. -/
theorem set_payload_trace_lookups (store : ConfigStore) (req : ReqBody) :
    ∀ e ∈ (set_payload store req).2,
      (∀ p, e ≠ Event.outboundCall p) ∧
      e ≠ Event.columnExtraction ∧ e ≠ Event.rowExtraction := by
  cases req with
  | invalid => simp [set_payload]
  | valid izF anF resume =>
    by_cases hv : (!truthy izF || !truthy anF) = true
    · simp [set_payload, hv]
    · cases harea : store.get_area_by_name "analytics" with
      | none => simp [set_payload, hv, harea]
      | some area =>
        cases hiz : store.get_iz_by_code (izF.getD "") with
        | none => simp [set_payload, hv, harea, hiz]
        | some iz =>
          cases han : store.get_analysis_by_name (anF.getD "") with
          | none => simp [set_payload, hv, harea, hiz, han]
          | some analysis =>
            cases hia : store.get_iz_analysis_by_iz_and_analysis iz analysis with
            | none => simp [set_payload, hv, harea, hiz, han, hia]
            | some izAnalysis =>
              cases hk : store.get_api_key_by_area_and_iz area.id iz.id false with
              | none => simp [set_payload, hv, harea, hiz, han, hia, hk]
              | some apikey => simp [set_payload, hv, harea, hiz, han, hia, hk]

/-- When set_payload fails, the handler returns its response and trace. -/
theorem handler_of_payload_error (store : ConfigStore) (remote : String → Except String Soup)
    (req : ReqBody) (resp : HttpResponse)
    (h : (set_payload store req).1 = .error resp) :
    httpalmaanalytics store remote req = (resp, (set_payload store req).2) := by
  simp [httpalmaanalytics, h]

/-! Claim C1. -/

/-- C1: for every request body that is valid JSON (a JSON object) whose
iz field or analysis field is missing or falsy, the handler returns
status 400, and its effect trace is empty: no configuration lookup is
performed and no outbound call is made. -/
theorem c1_missing_field_gives_400_no_effects (store : ConfigStore)
    (remote : String → Except String Soup) (izF anF resume : Option String)
    (h : truthy izF = false ∨ truthy anF = false) :
    (httpalmaanalytics store remote (.valid izF anF resume)).1.status = 400 ∧
    (httpalmaanalytics store remote (.valid izF anF resume)).2 = [] := by
  have hcond : (!truthy izF || !truthy anF) = true := by
    rcases h with h | h <;> simp [h]
  constructor <;> simp [httpalmaanalytics, set_payload, hcond]

/-- Witness for C1 at the concrete body with iz present but empty. -/
theorem c1_witness :
    (truthy (some "") = false ∨ truthy (some "occ") = false) ∧
    ((httpalmaanalytics sampleStore failRemote (.valid (some "") (some "occ") none)).1.status = 400 ∧
     (httpalmaanalytics sampleStore failRemote (.valid (some "") (some "occ") none)).2 = []) :=
  ⟨Or.inl rfl,
   c1_missing_field_gives_400_no_effects sampleStore failRemote (some "") (some "occ") none
     (Or.inl rfl)⟩

/-! Claim C2. -/

/-- One of the five configuration lookups of set_payload resolves to an
absent record on this request (for the later lookups: the earlier
lookups needed to form their arguments succeed). -/
def lookupChainFails (store : ConfigStore) (izCode analysisName : String) : Prop :=
  store.get_area_by_name "analytics" = none ∨
  store.get_iz_by_code izCode = none ∨
  store.get_analysis_by_name analysisName = none ∨
  (∃ i x, store.get_iz_by_code izCode = some i ∧
    store.get_analysis_by_name analysisName = some x ∧
    store.get_iz_analysis_by_iz_and_analysis i x = none) ∨
  (∃ a i, store.get_area_by_name "analytics" = some a ∧
    store.get_iz_by_code izCode = some i ∧
    store.get_api_key_by_area_and_iz a.id i.id false = none)

/-- When the lookup chain fails, set_payload returns a 404 response. -/
theorem set_payload_chain_fail_404 (store : ConfigStore) (izF anF resume : Option String)
    (hiz : truthy izF = true) (han : truthy anF = true)
    (hfail : lookupChainFails store (izF.getD "") (anF.getD "")) :
    ∃ resp, (set_payload store (.valid izF anF resume)).1 = .error resp ∧ resp.status = 404 := by
  have hcond : (!truthy izF || !truthy anF) = false := by simp [hiz, han]
  rcases hfail with h1 | h2 | h3 | ⟨i, x, hi, hx, h4⟩ | ⟨a, i, ha, hi, h5⟩
  · exact ⟨⟨404, "Area not found"⟩, by simp [set_payload, hcond, h1], rfl⟩
  · cases harea : store.get_area_by_name "analytics" with
    | none => exact ⟨⟨404, "Area not found"⟩, by simp [set_payload, hcond, harea], rfl⟩
    | some area =>
      exact ⟨⟨404, "IZ not found"⟩, by simp [set_payload, hcond, harea, h2], rfl⟩
  · cases harea : store.get_area_by_name "analytics" with
    | none => exact ⟨⟨404, "Area not found"⟩, by simp [set_payload, hcond, harea], rfl⟩
    | some area =>
      cases hizl : store.get_iz_by_code (izF.getD "") with
      | none => exact ⟨⟨404, "IZ not found"⟩, by simp [set_payload, hcond, harea, hizl], rfl⟩
      | some iz =>
        exact ⟨⟨404, "Analysis not found"⟩, by simp [set_payload, hcond, harea, hizl, h3], rfl⟩
  · cases harea : store.get_area_by_name "analytics" with
    | none => exact ⟨⟨404, "Area not found"⟩, by simp [set_payload, hcond, harea], rfl⟩
    | some area =>
      exact ⟨⟨404, "Report path not found"⟩, by simp [set_payload, hcond, harea, hi, hx, h4], rfl⟩
  · cases hx : store.get_analysis_by_name (anF.getD "") with
    | none => exact ⟨⟨404, "Analysis not found"⟩, by simp [set_payload, hcond, ha, hi, hx], rfl⟩
    | some x =>
      cases hia : store.get_iz_analysis_by_iz_and_analysis i x with
      | none =>
        exact ⟨⟨404, "Report path not found"⟩, by simp [set_payload, hcond, ha, hi, hx, hia], rfl⟩
      | some pa =>
        exact ⟨⟨404, "API key not found"⟩, by simp [set_payload, hcond, ha, hi, hx, hia, h5], rfl⟩

/-- C2: whenever one of the five configuration lookups resolves to an
absent record, the handler returns status 404 and the outbound GET to
the analytics API is never issued on that request. -/
theorem c2_lookup_failure_gives_404_no_outbound (store : ConfigStore)
    (remote : String → Except String Soup) (izF anF resume : Option String)
    (hiz : truthy izF = true) (han : truthy anF = true)
    (hfail : lookupChainFails store (izF.getD "") (anF.getD "")) :
    (httpalmaanalytics store remote (.valid izF anF resume)).1.status = 404 ∧
    ∀ p, Event.outboundCall p ∉ (httpalmaanalytics store remote (.valid izF anF resume)).2 := by
  obtain ⟨resp, herr, hstatus⟩ := set_payload_chain_fail_404 store izF anF resume hiz han hfail
  rw [handler_of_payload_error store remote _ resp herr]
  refine ⟨hstatus, fun p hmem => ?_⟩
  exact (set_payload_trace_lookups store _ _ hmem).1 p rfl

/-- Witness for C2: the store on which every lookup fails, with a valid body. -/
theorem c2_witness :
    (truthy (some "wrlc") = true ∧ truthy (some "occ") = true ∧
     lookupChainFails emptyStore "wrlc" "occ") ∧
    ((httpalmaanalytics emptyStore failRemote (.valid (some "wrlc") (some "occ") none)).1.status = 404 ∧
     ∀ p, Event.outboundCall p ∉
       (httpalmaanalytics emptyStore failRemote (.valid (some "wrlc") (some "occ") none)).2) :=
  ⟨⟨rfl, rfl, Or.inl rfl⟩,
   c2_lookup_failure_gives_404_no_outbound emptyStore failRemote (some "wrlc") (some "occ") none
     rfl rfl (Or.inl rfl)⟩

/-! Claim C3. -/

/-- UTF-8 bytes distribute over string append. -/
theorem strBytes_append (s t : String) : strBytes (s ++ t) = strBytes s ++ strBytes t := by
  simp [strBytes, String.data_append]

/-- String.join distributes over list append. -/
theorem string_join_append (l1 l2 : List String) :
    String.join (l1 ++ l2) = String.join l1 ++ String.join l2 := by
  apply String.ext
  simp [String.join_eq, String.data_append]

/-- quote_plus distributes over string append. -/
theorem quote_plus_append (safe : List Nat) (s t : String) :
    quote_plus safe (s ++ t) = quote_plus safe s ++ quote_plus safe t := by
  simp [quote_plus, strBytes_append, string_join_append]

/-- A colon anywhere in a quoted value stays a literal colon. -/
theorem quote_plus_colon (s t : String) :
    quote_plus safeColonPercent (s ++ ":" ++ t) =
      quote_plus safeColonPercent s ++ ":" ++ quote_plus safeColonPercent t := by
  rw [quote_plus_append, quote_plus_append,
    show quote_plus safeColonPercent ":" = ":" from by decide]

/-- A percent anywhere in a quoted value stays a literal percent. -/
theorem quote_plus_percent (s t : String) :
    quote_plus safeColonPercent (s ++ "%" ++ t) =
      quote_plus safeColonPercent s ++ "%" ++ quote_plus safeColonPercent t := by
  rw [quote_plus_append, quote_plus_append,
    show quote_plus safeColonPercent "%" = "%" from by decide]

/-- urlencode of the fixed four-pair parameter dictionary, expanded. -/
theorem urlencode_payload (p k : String) :
    urlencode safeColonPercent [("path", p), ("apikey", k), ("limit", "1000"), ("col_names", "true")] =
    "path=" ++ quote_plus safeColonPercent p ++ "&apikey=" ++ quote_plus safeColonPercent k ++
      "&limit=1000&col_names=true" := by
  rw [show ("path=" : String) = "path" ++ "=" from rfl,
      show ("&apikey=" : String) = "&" ++ "apikey" ++ "=" from rfl,
      show ("&limit=1000&col_names=true" : String) =
        "&" ++ "limit" ++ "=" ++ "1000" ++ "&" ++ "col_names" ++ "=" ++ "true" from rfl]
  have hpath : quote_plus safeColonPercent "path" = "path" := by decide
  have hapikey : quote_plus safeColonPercent "apikey" = "apikey" := by decide
  have hlimit : quote_plus safeColonPercent "limit" = "limit" := by decide
  have h1000 : quote_plus safeColonPercent "1000" = "1000" := by decide
  have hcol : quote_plus safeColonPercent "col_names" = "col_names" := by decide
  have htrue : quote_plus safeColonPercent "true" = "true" := by decide
  simp only [urlencode, List.map, String.intercalate, String.intercalate.go,
    hpath, hapikey, hlimit, h1000, hcol, htrue, String.append_assoc]

/-- C3 counterexample: the resume token is present in the request body
(as the empty string), yet the payload contains no token key at all —
the code appends the token only when the field is truthy, not whenever
it is present. -/
theorem c3_counterexample :
    (set_payload sampleStore (.valid (some "wrlc") (some "occ") (some ""))).1 =
      .ok "path=x:y%z&apikey=k123&limit=1000&col_names=true" ∧
    containsSubstr "token" "path=x:y%z&apikey=k123&limit=1000&col_names=true" = false :=
  ⟨rfl, by decide⟩

/-- C3 (amended): for every resolved path, credential, and optional
continuation token, the payload is the URL-encoded query string with
exactly the keys path, apikey, limit=1000 and col_names=true, with
colon and percent characters left unescaped in the quoted values, and
with the token= key appended if and only if the resume field is present
and truthy (non-empty). -/
theorem c3_payload_query_string (store : ConfigStore) (izF anF resume : Option String)
    (a : Area) (i : IZ) (x : Analysis) (pa : IZAnalysis) (key : ApiKey)
    (hiz : truthy izF = true) (han : truthy anF = true)
    (harea : store.get_area_by_name "analytics" = some a)
    (hizl : store.get_iz_by_code (izF.getD "") = some i)
    (hanl : store.get_analysis_by_name (anF.getD "") = some x)
    (hia : store.get_iz_analysis_by_iz_and_analysis i x = some pa)
    (hk : store.get_api_key_by_area_and_iz a.id i.id false = some key) :
    (set_payload store (.valid izF anF resume)).1 =
      .ok ("path=" ++ quote_plus safeColonPercent pa.path ++
           "&apikey=" ++ quote_plus safeColonPercent key.apikey ++
           "&limit=1000&col_names=true" ++
           (if truthy resume then "&token=" ++ resume.getD "" else "")) ∧
    (∀ s t, quote_plus safeColonPercent (s ++ ":" ++ t) =
      quote_plus safeColonPercent s ++ ":" ++ quote_plus safeColonPercent t) ∧
    (∀ s t, quote_plus safeColonPercent (s ++ "%" ++ t) =
      quote_plus safeColonPercent s ++ "%" ++ quote_plus safeColonPercent t) := by
  have hcond : (!truthy izF || !truthy anF) = false := by simp [hiz, han]
  refine ⟨?_, quote_plus_colon, quote_plus_percent⟩
  simp only [set_payload, hcond, harea, hizl, hanl, hia, hk, urlencode_payload,
    Bool.false_eq_true, if_false]
  by_cases hr : truthy resume
  · simp only [hr, if_true, String.append_assoc]
  · simp [hr]

/-- Witness for C3 (amended) on the sample store with a truthy token. -/
theorem c3_witness :
    (truthy (some "wrlc") = true ∧ truthy (some "occ") = true ∧
     sampleStore.get_iz_analysis_by_iz_and_analysis ⟨42, "wrlc"⟩ ⟨99, "occ"⟩ = some ⟨"x:y%z"⟩) ∧
    (set_payload sampleStore (.valid (some "wrlc") (some "occ") (some "abc"))).1 =
      .ok ("path=" ++ quote_plus safeColonPercent "x:y%z" ++
           "&apikey=" ++ quote_plus safeColonPercent "k123" ++
           "&limit=1000&col_names=true" ++
           (if truthy (some "abc") then "&token=" ++ (some "abc").getD "" else "")) :=
  ⟨⟨rfl, rfl, by decide⟩,
   (c3_payload_query_string sampleStore (some "wrlc") (some "occ") (some "abc")
     ⟨7⟩ ⟨42, "wrlc"⟩ ⟨99, "occ"⟩ ⟨"x:y%z"⟩ ⟨"k123"⟩
     rfl rfl (by decide) (by decide) (by decide) (by decide) (by decide)).1⟩

/-! Claim C4. -/

/-- After one step of the get_columns loop, the declaration's name maps to
its (possibly normalized) heading. -/
theorem columnStep_lookup_self (cols : List (String × String)) (c : ColumnDecl) :
    (columnStep cols c).lookup c.name =
      some (if containsSubstr provenancePattern c.heading then "Provenance Code" else c.heading) := by
  by_cases h : containsSubstr provenancePattern c.heading
  · simp [columnStep, h, dictInsert_lookup_self]
  · simp [columnStep, h, dictInsert_lookup_self]

/-- One step of the get_columns loop leaves other keys unchanged. -/
theorem columnStep_lookup_other (cols : List (String × String)) (c : ColumnDecl) (k : String)
    (h : k ≠ c.name) : (columnStep cols c).lookup k = cols.lookup k := by
  by_cases hc : containsSubstr provenancePattern c.heading
  · simp [columnStep, hc, dictInsert_lookup_other _ _ _ _ h]
  · simp [columnStep, hc, dictInsert_lookup_other _ _ _ _ h]

/-- Folding the get_columns loop over declarations none of which carry a
given name leaves that key's entry unchanged. -/
theorem columnsFold_lookup_untouched (l : List ColumnDecl) (acc : List (String × String))
    (k : String) (h : ∀ e ∈ l, e.name ≠ k) :
    (l.foldl columnStep acc).lookup k = acc.lookup k := by
  induction l generalizing acc with
  | nil => rfl
  | cons c rest ih =>
    simp only [List.foldl_cons]
    rw [ih _ (fun e he => h e (List.mem_cons_of_mem _ he))]
    exact columnStep_lookup_other acc c k (Ne.symm (h c (List.mem_cons_self _ _)))

/-- C4: every column declaration whose saw-sql:columnHeading contains the
substring "CASE  WHEN Provenance Code" maps its name attribute — whatever
that internal name is — to the literal header "Provenance Code" in the
columns dictionary, and every other declaration maps its name attribute
to its heading attribute unchanged (stated for the last declaration
carrying its name, which is the one whose entry the dictionary keeps). -/
theorem c4_provenance_normalization (decls l1 l2 : List ColumnDecl) (d : ColumnDecl)
    (hsplit : decls = l1 ++ d :: l2) (hlast : ∀ e ∈ l2, e.name ≠ d.name) :
    (columnsMap decls).lookup d.name =
      some (if containsSubstr provenancePattern d.heading then "Provenance Code" else d.heading) := by
  subst hsplit
  unfold columnsMap
  rw [List.foldl_append]
  simp only [List.foldl_cons]
  rw [columnsFold_lookup_untouched l2 _ d.name hlast, columnStep_lookup_self]

/-- Witness for C4: a matching heading under an arbitrary internal name is
normalized; the non-matching declaration keeps its heading. -/
theorem c4_witness :
    (∀ e ∈ [(⟨"Column2", "Title"⟩ : ColumnDecl)], e.name ≠ "AnyName") ∧
    (columnsMap [⟨"AnyName", "CASE  WHEN Provenance Code THEN 1 END"⟩, ⟨"Column2", "Title"⟩]).lookup "AnyName" =
      some (if containsSubstr provenancePattern "CASE  WHEN Provenance Code THEN 1 END"
            then "Provenance Code" else "CASE  WHEN Provenance Code THEN 1 END") :=
  ⟨by decide,
   c4_provenance_normalization _ [] [⟨"Column2", "Title"⟩]
     ⟨"AnyName", "CASE  WHEN Provenance Code THEN 1 END"⟩ rfl (by decide)⟩

/-! Row extraction lemmas shared by the row claims. -/

/-- The get_rows inner loop ignores a Column0 child. -/
theorem rowStep_skip (columns vals : List (String × String)) (kid : Cell)
    (h : kid.tag = "Column0") : rowStep columns vals kid = vals := by
  simp [rowStep, h]

/-- The get_rows inner loop records a non-Column0 child under its resolved key. -/
theorem rowStep_insert (columns vals : List (String × String)) (kid : Cell)
    (h : kid.tag ≠ "Column0") :
    rowStep columns vals kid = dictInsert vals (resolveKey columns kid.tag) kid.text := by
  simp only [rowStep, resolveKey, bne_iff_ne, ne_eq, h, not_false_eq_true, if_true]
  cases columns.lookup kid.tag <;> rfl

/-- Folding the row loop over children that are Column0 or resolve away
from a key leaves that key's entry unchanged. -/
theorem rowFold_lookup_untouched (columns : List (String × String)) (l : List Cell)
    (acc : List (String × String)) (k : String)
    (h : ∀ c ∈ l, c.tag = "Column0" ∨ resolveKey columns c.tag ≠ k) :
    (l.foldl (rowStep columns) acc).lookup k = acc.lookup k := by
  induction l generalizing acc with
  | nil => rfl
  | cons c rest ih =>
    simp only [List.foldl_cons]
    rw [ih _ (fun e he => h e (List.mem_cons_of_mem _ he))]
    by_cases ht : c.tag = "Column0"
    · rw [rowStep_skip _ _ _ ht]
    · rcases h c (List.mem_cons_self _ _) with hc | hc
      · exact absurd hc ht
      · rw [rowStep_insert _ _ _ ht, dictInsert_lookup_other _ _ _ _ (Ne.symm hc)]

/-- The values dictionary at the key of the last child contributing that
key holds that child's text. -/
theorem rowValues_lookup_last (columns : List (String × String)) (pre post : List Cell)
    (c : Cell) (hc : c.tag ≠ "Column0")
    (hlast : ∀ e ∈ post, e.tag = "Column0" ∨ resolveKey columns e.tag ≠ resolveKey columns c.tag) :
    (rowValues columns (pre ++ c :: post)).lookup (resolveKey columns c.tag) = some c.text := by
  unfold rowValues
  rw [List.foldl_append]
  simp only [List.foldl_cons]
  rw [rowFold_lookup_untouched _ post _ _ hlast, rowStep_insert _ _ _ hc, dictInsert_lookup_self]

/-- The row loop is unchanged by dropping the Column0 children. -/
theorem rowFold_filter (columns : List (String × String)) (l : List Cell)
    (acc : List (String × String)) :
    l.foldl (rowStep columns) acc =
      (l.filter (fun c => c.tag != "Column0")).foldl (rowStep columns) acc := by
  induction l generalizing acc with
  | nil => rfl
  | cons c rest ih =>
    by_cases h : c.tag = "Column0"
    · simp only [List.foldl_cons, List.filter_cons, h, bne_self_eq_false, rowStep_skip _ _ _ h]
      exact ih acc
    · simp only [List.foldl_cons, List.filter_cons, bne_iff_ne, ne_eq, h, not_false_eq_true,
        if_true, List.foldl_cons]
      exact ih (rowStep columns acc c)

/-- Whenever some child of a row contributes a key, the built dictionary
holds that key, and its value is the text of one of the contributing
children (the last one in document order). -/
theorem rowFold_lookup_mem (columns : List (String × String)) (l : List Cell)
    (acc : List (String × String)) (k : String)
    (hk : ∃ c ∈ l, c.tag ≠ "Column0" ∧ resolveKey columns c.tag = k) :
    ∃ c2 ∈ l, c2.tag ≠ "Column0" ∧ resolveKey columns c2.tag = k ∧
      (l.foldl (rowStep columns) acc).lookup k = some c2.text := by
  induction l generalizing acc with
  | nil =>
    obtain ⟨c, hmem, _⟩ := hk
    cases hmem
  | cons c rest ih =>
    by_cases hrest : ∃ c2 ∈ rest, c2.tag ≠ "Column0" ∧ resolveKey columns c2.tag = k
    · obtain ⟨c2, hm, hc2, hkey, hl⟩ := ih (rowStep columns acc c) hrest
      exact ⟨c2, List.mem_cons_of_mem _ hm, hc2, hkey, hl⟩
    · obtain ⟨c0, hm, hc0, hkey0⟩ := hk
      rcases List.mem_cons.mp hm with rfl | hm2
      · refine ⟨c0, List.mem_cons_self _ _, hc0, hkey0, ?_⟩
        simp only [List.foldl_cons]
        rw [rowFold_lookup_untouched]
        · rw [rowStep_insert _ _ _ hc0, hkey0, dictInsert_lookup_self]
        · intro e he
          by_cases ht : e.tag = "Column0"
          · exact Or.inl ht
          · exact Or.inr (fun hek => hrest ⟨e, he, ht, hek⟩)
      · exact absurd ⟨c0, hm2, hc0, hkey0⟩ hrest

/-! Claim C5. -/

/-- C5: in every extracted row, a child named exactly Column0 never
contributes an entry (dropping all Column0 children leaves the row
dictionary unchanged, whatever their text), and every other child
contributes under its resolved key — the column-map header when its tag
is in the map, its raw tag name otherwise — the recorded value being
the text of the last child resolving to that key. -/
theorem c5_column0_never_contributes (soup : Soup) (columns : List (String × String))
    (rs : List (List (String × String))) (h : get_rows soup columns = .ok rs) :
    rs = soup.rowElems.map (rowValues columns) ∧
    (∀ row ∈ soup.rowElems,
      rowValues columns row = rowValues columns (row.filter (fun c => c.tag != "Column0"))) ∧
    (∀ row ∈ soup.rowElems, ∀ c ∈ row, c.tag ≠ "Column0" →
      ∃ c2 ∈ row, c2.tag ≠ "Column0" ∧
        resolveKey columns c2.tag = resolveKey columns c.tag ∧
        (rowValues columns row).lookup (resolveKey columns c.tag) = some c2.text) := by
  refine ⟨?_, ?_, ?_⟩
  · by_cases he : soup.rowElems.isEmpty <;> simp [get_rows, he] at h
    exact h.symm
  · intro row _
    simpa [rowValues] using rowFold_filter columns row []
  · intro row _ c hmem htag
    simpa [rowValues] using rowFold_lookup_mem columns row [] _ ⟨c, hmem, htag, rfl⟩

/-- The one-column one-row document of the specification's round trip,
with a Column0 child present in the row. -/
def soup5 : Soup :=
  ⟨false, none, [⟨"Column1", "Title"⟩], [[⟨"Column0", "x"⟩, ⟨"Column1", "Foo"⟩]], none⟩

/-- Witness for C5: the Column0 child of the sample row is dropped and the
Column1 child is recorded under the Title header. -/
theorem c5_witness :
    get_rows soup5 [("Column1", "Title")] = .ok [[("Title", "Foo")]] ∧
    [[("Title", "Foo")]] = soup5.rowElems.map (rowValues [("Column1", "Title")]) :=
  ⟨rfl, (c5_column0_never_contributes soup5 [("Column1", "Title")] [[("Title", "Foo")]] rfl).1⟩

/-! Claim C9. -/

/-- C9: when two non-Column0 children of one row resolve to the same key
(the second being the last such child), the row dictionary holds only the
second child's text under that key — the earlier value is overwritten. -/
theorem c9_duplicate_keys_last_wins (columns : List (String × String))
    (pre mid post : List Cell) (c1 c2 : Cell)
    (_hc1 : c1.tag ≠ "Column0") (hc2 : c2.tag ≠ "Column0")
    (hdup : resolveKey columns c1.tag = resolveKey columns c2.tag)
    (hlast : ∀ e ∈ post, e.tag = "Column0" ∨ resolveKey columns e.tag ≠ resolveKey columns c2.tag) :
    (rowValues columns (pre ++ c1 :: mid ++ c2 :: post)).lookup (resolveKey columns c1.tag) =
      some c2.text := by
  rw [hdup, show pre ++ c1 :: mid ++ c2 :: post = (pre ++ c1 :: mid) ++ c2 :: post from by simp]
  exact rowValues_lookup_last columns _ post c2 hc2 hlast

/-- Witness for C9: two columns both headed H; the row dictionary keeps
only the text of the second child. -/
theorem c9_witness :
    (resolveKey [("Column1", "H"), ("Column2", "H")] "Column1" =
      resolveKey [("Column1", "H"), ("Column2", "H")] "Column2") ∧
    (rowValues [("Column1", "H"), ("Column2", "H")]
      ([] ++ (⟨"Column1", "a"⟩ : Cell) :: [] ++ (⟨"Column2", "b"⟩ : Cell) :: [])).lookup
        (resolveKey [("Column1", "H"), ("Column2", "H")] (Cell.tag ⟨"Column1", "a"⟩)) =
      some "b" :=
  ⟨by decide,
   c9_duplicate_keys_last_wins [("Column1", "H"), ("Column2", "H")] [] [] []
     ⟨"Column1", "a"⟩ ⟨"Column2", "b"⟩ (by decide) (by decide) (by decide) (by simp)⟩

/-! Claim C6. -/

/-- C6: for every parsed, non-empty document with no error element, the
handler returns 404 with body No columns found when the document has no
column declarations, and 404 with body No rows found when it has at
least one declaration but no Row elements. -/
theorem c6_empty_results_404 (store : ConfigStore) (remote : String → Except String Soup)
    (req : ReqBody) (p : String) (soup : Soup)
    (hp : (set_payload store req).1 = .ok p)
    (hremote : remote p = .ok soup)
    (hne : soup.isEmpty = false) (herr : soup.errorText = none) :
    (soup.columnDecls = [] →
      (httpalmaanalytics store remote req).1 = ⟨404, "No columns found"⟩) ∧
    (soup.columnDecls ≠ [] → soup.rowElems = [] →
      (httpalmaanalytics store remote req).1 = ⟨404, "No rows found"⟩) := by
  constructor
  · intro hcols
    simp [httpalmaanalytics, hp, make_api_call, hremote, get_soup, hne, herr, get_columns, hcols]
  · intro hcols hrows
    have hcolsE : soup.columnDecls.isEmpty = false := by
      cases hcl : soup.columnDecls with
      | nil => exact absurd hcl hcols
      | cons a l => rfl
    simp [httpalmaanalytics, hp, make_api_call, hremote, get_soup, hne, herr, get_columns,
      hcolsE, get_rows, hrows]

/-- Witness for C6: a non-empty document with no declarations at all. -/
theorem c6_witness :
    (set_payload sampleStore (.valid (some "wrlc") (some "occ") none)).1 =
      .ok "path=x:y%z&apikey=k123&limit=1000&col_names=true" ∧
    (httpalmaanalytics sampleStore (constRemote ⟨false, none, [], [], none⟩)
        (.valid (some "wrlc") (some "occ") none)).1 = ⟨404, "No columns found"⟩ :=
  ⟨rfl,
   (c6_empty_results_404 sampleStore (constRemote ⟨false, none, [], [], none⟩)
     (.valid (some "wrlc") (some "occ") none) "path=x:y%z&apikey=k123&limit=1000&col_names=true"
     ⟨false, none, [], [], none⟩ rfl rfl rfl rfl).1 rfl⟩

/-! Claim C7. -/

/-- A list always occurs at its own head. -/
theorem strHeadMatch_self (l : List Char) : strHeadMatch l l = true := by
  induction l with
  | nil => rfl
  | cons a as ih => simp [strHeadMatch, ih]

/-- A list occurs in itself. -/
theorem strFindSub_self (l : List Char) : strFindSub l l = true := by
  cases l with
  | nil => rfl
  | cons a as => simp [strFindSub, strHeadMatch_self]

/-- A string is contained in any string extending it on the left. -/
theorem containsSubstr_append_self (t s : String) : containsSubstr s (t ++ s) = true := by
  unfold containsSubstr
  rw [String.data_append]
  induction t.data with
  | nil => simpa using strFindSub_self s.data
  | cons b bs ih => simp [strFindSub, ih]

/-- C7: for every returned non-empty document carrying an error element
with text x, the handler returns status 500 with a body containing x,
and neither column extraction nor row extraction is attempted. -/
theorem c7_error_element_500 (store : ConfigStore) (remote : String → Except String Soup)
    (req : ReqBody) (p : String) (soup : Soup) (x : String)
    (hp : (set_payload store req).1 = .ok p)
    (hremote : remote p = .ok soup)
    (hne : soup.isEmpty = false) (herr : soup.errorText = some x) :
    (httpalmaanalytics store remote req).1.status = 500 ∧
    (httpalmaanalytics store remote req).1.body = "Error: " ++ x ∧
    containsSubstr x (httpalmaanalytics store remote req).1.body = true ∧
    Event.columnExtraction ∉ (httpalmaanalytics store remote req).2 ∧
    Event.rowExtraction ∉ (httpalmaanalytics store remote req).2 := by
  have hred : httpalmaanalytics store remote req =
      (⟨500, "Error: " ++ x⟩, (set_payload store req).2 ++ [.outboundCall p]) := by
    simp [httpalmaanalytics, hp, make_api_call, hremote, get_soup, hne, herr]
  rw [hred]
  refine ⟨rfl, rfl, containsSubstr_append_self "Error: " x, ?_, ?_⟩
  · intro hmem
    rcases List.mem_append.mp hmem with hm | hm
    · exact (set_payload_trace_lookups store req _ hm).2.1 rfl
    · simp at hm
  · intro hmem
    rcases List.mem_append.mp hmem with hm | hm
    · exact (set_payload_trace_lookups store req _ hm).2.2 rfl
    · simp at hm

/-- Witness for C7: a document whose error element holds the text Oops. -/
theorem c7_witness :
    constRemote ⟨false, some "Oops", [], [], none⟩
        "path=x:y%z&apikey=k123&limit=1000&col_names=true" =
      .ok ⟨false, some "Oops", [], [], none⟩ ∧
    (httpalmaanalytics sampleStore (constRemote ⟨false, some "Oops", [], [], none⟩)
      (.valid (some "wrlc") (some "occ") none)).1.status = 500 ∧
    (httpalmaanalytics sampleStore (constRemote ⟨false, some "Oops", [], [], none⟩)
      (.valid (some "wrlc") (some "occ") none)).1.body = "Error: " ++ "Oops" :=
  ⟨rfl,
   (c7_error_element_500 sampleStore (constRemote ⟨false, some "Oops", [], [], none⟩)
     (.valid (some "wrlc") (some "occ") none) "path=x:y%z&apikey=k123&limit=1000&col_names=true"
     ⟨false, some "Oops", [], [], none⟩ "Oops" rfl rfl rfl rfl).1,
   (c7_error_element_500 sampleStore (constRemote ⟨false, some "Oops", [], [], none⟩)
     (.valid (some "wrlc") (some "occ") none) "path=x:y%z&apikey=k123&limit=1000&col_names=true"
     ⟨false, some "Oops", [], [], none⟩ "Oops" rfl rfl rfl rfl).2.1⟩

/-! Claim C10. -/

/-- C10: when the remote call succeeds but the body parses to an empty
document (a falsy soup: no contents), the handler returns 404 with body
Empty or invalid XML response, before the error-element check (the
conclusion holds whatever errorText is) and distinct from the No columns
found and No rows found paths (neither extraction is attempted). -/
theorem c10_empty_document_404 (store : ConfigStore) (remote : String → Except String Soup)
    (req : ReqBody) (p : String) (soup : Soup)
    (hp : (set_payload store req).1 = .ok p)
    (hremote : remote p = .ok soup)
    (hempty : soup.isEmpty = true) :
    (httpalmaanalytics store remote req).1 = ⟨404, "Empty or invalid XML response"⟩ ∧
    Event.columnExtraction ∉ (httpalmaanalytics store remote req).2 ∧
    Event.rowExtraction ∉ (httpalmaanalytics store remote req).2 := by
  have hred : httpalmaanalytics store remote req =
      (⟨404, "Empty or invalid XML response"⟩, (set_payload store req).2 ++ [.outboundCall p]) := by
    simp [httpalmaanalytics, hp, make_api_call, hremote, get_soup, hempty]
  rw [hred]
  refine ⟨rfl, ?_, ?_⟩
  · intro hmem
    rcases List.mem_append.mp hmem with hm | hm
    · exact (set_payload_trace_lookups store req _ hm).2.1 rfl
    · simp at hm
  · intro hmem
    rcases List.mem_append.mp hmem with hm | hm
    · exact (set_payload_trace_lookups store req _ hm).2.2 rfl
    · simp at hm

/-- Witness for C10: an empty parsed document — even one whose errorText
field is set, showing the empty check precedes the error check. -/
theorem c10_witness :
    (set_payload sampleStore (.valid (some "wrlc") (some "occ") none)).1 =
      .ok "path=x:y%z&apikey=k123&limit=1000&col_names=true" ∧
    (httpalmaanalytics sampleStore (constRemote ⟨true, some "ignored", [], [], none⟩)
      (.valid (some "wrlc") (some "occ") none)).1 = ⟨404, "Empty or invalid XML response"⟩ :=
  ⟨rfl,
   (c10_empty_document_404 sampleStore (constRemote ⟨true, some "ignored", [], [], none⟩)
     (.valid (some "wrlc") (some "occ") none) "path=x:y%z&apikey=k123&limit=1000&col_names=true"
     ⟨true, some "ignored", [], [], none⟩ rfl rfl rfl).1⟩

/-! Claim C8. -/

/-- A store for C8 whose organization lookup returns the record with id 1;
the path and credential lookups succeed on any input. -/
def storeIZ1 : ConfigStore where
  get_area_by_name := fun n => if n == "analytics" then some ⟨7⟩ else none
  get_iz_by_code := fun c => if c == "wrlc" then some ⟨1, "wrlc"⟩ else none
  get_analysis_by_name := fun n => if n == "occ" then some ⟨99, "occ"⟩ else none
  get_iz_analysis_by_iz_and_analysis := fun _ _ => some ⟨"p"⟩
  get_api_key_by_area_and_iz := fun _ _ _ => some ⟨"k"⟩

/-- The same store except that the organization lookup returns id 2. -/
def storeIZ2 : ConfigStore :=
  { storeIZ1 with get_iz_by_code := fun c => if c == "wrlc" then some ⟨2, "wrlc"⟩ else none }

/-- C8 counterexample: two runs whose area lookup (first) and analysis
lookup (third) return identical records, yet whose credential lookup
(fifth) receives different arguments — so those arguments are not a
function of the first and third results; they follow the organization
record of the second lookup. -/
theorem c8_counterexample :
    storeIZ1.get_area_by_name "analytics" = storeIZ2.get_area_by_name "analytics" ∧
    storeIZ1.get_analysis_by_name "occ" = storeIZ2.get_analysis_by_name "occ" ∧
    Event.lookupApiKey 7 1 false ∈
      (set_payload storeIZ1 (.valid (some "wrlc") (some "occ") none)).2 ∧
    Event.lookupApiKey 7 1 false ∉
      (set_payload storeIZ2 (.valid (some "wrlc") (some "occ") none)).2 ∧
    Event.lookupApiKey 7 2 false ∈
      (set_payload storeIZ2 (.valid (some "wrlc") (some "occ") none)).2 := by
  refine ⟨rfl, rfl, ?_, ?_, ?_⟩ <;> decide

/-- C8 (amended): the fourth lookup (the organization-specific analysis
path) is called with the records returned by the second lookup (the
organization) and the third lookup (the analysis); the fifth lookup (the
read-only credential) is called with the id of the first lookup's area
record, the id of the second lookup's organization record, and False. -/
theorem c8_lookup_arguments (store : ConfigStore) (izF anF resume : Option String)
    (a : Area) (i : IZ) (x : Analysis) (pa : IZAnalysis)
    (hiz : truthy izF = true) (han : truthy anF = true)
    (harea : store.get_area_by_name "analytics" = some a)
    (hizl : store.get_iz_by_code (izF.getD "") = some i)
    (hanl : store.get_analysis_by_name (anF.getD "") = some x)
    (hia : store.get_iz_analysis_by_iz_and_analysis i x = some pa) :
    Event.lookupIZAnalysis i x ∈ (set_payload store (.valid izF anF resume)).2 ∧
    Event.lookupApiKey a.id i.id false ∈ (set_payload store (.valid izF anF resume)).2 := by
  have hcond : (!truthy izF || !truthy anF) = false := by simp [hiz, han]
  cases hk : store.get_api_key_by_area_and_iz a.id i.id false <;>
    simp [set_payload, hcond, harea, hizl, hanl, hia, hk]

/-- Witness for C8 (amended) on the sample store. -/
theorem c8_witness :
    (sampleStore.get_area_by_name "analytics" = some ⟨7⟩ ∧
     sampleStore.get_iz_by_code "wrlc" = some ⟨42, "wrlc"⟩) ∧
    Event.lookupIZAnalysis ⟨42, "wrlc"⟩ ⟨99, "occ"⟩ ∈
      (set_payload sampleStore (.valid (some "wrlc") (some "occ") none)).2 ∧
    Event.lookupApiKey (Area.id ⟨7⟩) (IZ.id ⟨42, "wrlc"⟩) false ∈
      (set_payload sampleStore (.valid (some "wrlc") (some "occ") none)).2 :=
  ⟨⟨by decide, by decide⟩,
   c8_lookup_arguments sampleStore (some "wrlc") (some "occ") none
     ⟨7⟩ ⟨42, "wrlc"⟩ ⟨99, "occ"⟩ ⟨"x:y%z"⟩
     rfl rfl (by decide) (by decide) (by decide) (by decide)⟩

end AlmaAnalytics
